import Mathlib

/-!
Verification development for the WiFiLogger2 polyglot node server
(src/WiFiLogger2.py).  The Python source is shallowly embedded: pure
helpers become Lean functions, the controller becomes an explicit state
type with state-passing operations, Python floats are idealized as exact
rationals (transcendental library calls, math.log and math.pow, are
modelled over the reals or abstracted as parameters), and fallible code
is modelled with Option / explicit outcome types.
-/

namespace WiFiLogger2

/-- The function convert_to_float (WiFiLogger2.py lines 20 to 24).  A JSON
value is represented by the result Python float() would give on it: some q
when parsing succeeds with value q, none when float() raises.  The source
returns 0 when float() raises. -/
def convert_to_float : Option ℚ → ℚ
  | some q => q
  | none => 0

/-- The function f_to_c (lines 27 to 28): Fahrenheit to Celsius. -/
def f_to_c (value : ℚ) : ℚ := (value - 32) * 5.0 / 9.0

/-- Python rounding of y to the nearest integer with ties going to the even
neighbour (banker rounding), as performed by round(x, 1) after scaling.
None of the uses in this development sit on a tie. -/
def roundHE {α : Type} [LinearOrderedField α] [FloorRing α] (y : α) : ℤ :=
  if y - ⌊y⌋ < 1 / 2 then ⌊y⌋
  else if 1 / 2 < y - ⌊y⌋ then ⌊y⌋ + 1
  else if ⌊y⌋ % 2 = 0 then ⌊y⌋ else ⌊y⌋ + 1

/-- Python round(x, 1): round to one decimal place, ties to even. -/
def round1 {α : Type} [LinearOrderedField α] [FloorRing α] (x : α) : α :=
  (roundHE (10 * x) : ℤ) / 10

/-- Driver code and unit of measure tables of the uom module.  Modelled from
the spec: uom.py belongs to the repository but is not under src/; the spec
(sections 2 and 6) fixes only that it is a static lookup table from semantic
measurement names to host specific driver codes and numeric unit of measure
codes, so the tables are kept abstract. -/
structure UomTables where
  TEMP_DRVS : String → String
  HUMD_DRVS : String → String
  PRES_DRVS : String → String
  WIND_DRVS : String → String
  RAIN_DRVS : String → String
  LITE_DRVS : String → String
  UOM : String → ℕ

/-- A concrete instance of the abstract uom tables, used to evaluate the
model on closed inputs. -/
def u0 : UomTables := ⟨id, id, id, id, id, id, fun _ => 0⟩

/-- TemperatureNode.setDriver (lines 379 to 382): the override rounds the
value to one decimal place and forwards with report=True and force=True.
The result is (value written, report flag, force flag). -/
def TemperatureNode_setDriver (value : ℚ) : ℚ × Bool × Bool :=
  (round1 value, true, true)

/-- HumidityNode.setDriver (lines 394 to 395): passes the value through. -/
def HumidityNode_setDriver (value : ℚ) : ℚ × Bool × Bool :=
  (value, true, true)

/-- PressureNode.setDriver (lines 410 to 411): passes the value through. -/
def PressureNode_setDriver (value : ℚ) : ℚ × Bool × Bool :=
  (value, true, true)

/-- WindNode.setDriver (lines 423 to 424): passes the value through. -/
def WindNode_setDriver (value : ℚ) : ℚ × Bool × Bool :=
  (value, true, true)

/-- PrecipitationNode.setDriver (lines 445 to 447): passes the value
through. -/
def PrecipitationNode_setDriver (value : ℚ) : ℚ × Bool × Bool :=
  (value, true, true)

/-- LightNode.setDriver (lines 459 to 460): passes the value through. -/
def LightNode_setDriver (value : ℚ) : ℚ × Bool × Bool :=
  (value, true, true)

/-- LightningNode.setDriver (lines 472 to 473): passes the value through. -/
def LightningNode_setDriver (value : ℚ) : ℚ × Bool × Bool :=
  (value, true, true)

/-- Dispatch of setDriver by the node address used in longPoll.  The default
arm (never reached by longPoll) is the base class behaviour. -/
def setDriverFor : String → ℚ → ℚ × Bool × Bool
  | "temperature", v => TemperatureNode_setDriver v
  | "humidity", v => HumidityNode_setDriver v
  | "pressure", v => PressureNode_setDriver v
  | "wind", v => WindNode_setDriver v
  | "rain", v => PrecipitationNode_setDriver v
  | "light", v => LightNode_setDriver v
  | _, v => (v, true, true)

/-- One setDriver call of Controller.longPoll (lines 104 to 140): the JSON
field read, the node address written to, the semantic driver key looked up
in the uom tables, and whether f_to_c is applied to the converted value. -/
structure FieldSpec where
  field : String
  node : String
  drv : String
  convert : Bool
deriving DecidableEq

/-- The thirteen setDriver calls of longPoll, in source order (lines 109 to
140).  f_to_c is applied exactly to the dew, tempout and chill fields. -/
def pollFields : List FieldSpec :=
  [⟨"uv", "light", "uv", false⟩,
   ⟨"solar", "light", "solar_radiation", false⟩,
   ⟨"rainr", "rain", "rate", false⟩,
   ⟨"rain24", "rain", "total", false⟩,
   ⟨"dew", "temperature", "dewpoint", true⟩,
   ⟨"tempout", "temperature", "main", true⟩,
   ⟨"chill", "temperature", "windchill", true⟩,
   ⟨"humout", "humidity", "main", false⟩,
   ⟨"bartr", "pressure", "station", false⟩,
   ⟨"bar", "pressure", "sealevel", false⟩,
   ⟨"windspd", "wind", "windspeed", false⟩,
   ⟨"gust", "wind", "gustspeed", false⟩,
   ⟨"winddir", "wind", "winddir", false⟩]

/-- A poll payload: for each JSON field name, none when the key is absent
from the parsed object (so that indexing raises KeyError), and some jv when
the key is present, jv being the float() view of its value. -/
def Payload : Type := String → Option (Option ℚ)

/-- Resolution of the driver code for a node address and semantic key, as
written in longPoll (uom.LITE_DRVS, uom.RAIN_DRVS, uom.TEMP_DRVS,
uom.HUMD_DRVS, uom.PRES_DRVS, uom.WIND_DRVS). -/
def drvCode (u : UomTables) (node drv : String) : String :=
  match node with
  | "temperature" => u.TEMP_DRVS drv
  | "humidity" => u.HUMD_DRVS drv
  | "pressure" => u.PRES_DRVS drv
  | "wind" => u.WIND_DRVS drv
  | "rain" => u.RAIN_DRVS drv
  | _ => u.LITE_DRVS drv

/-- One recorded driver write: node address, driver code, value as stored
after the setDriver override of that node class. -/
structure Write where
  node : String
  driver : String
  value : ℚ
deriving DecidableEq

/-- The write performed by longPoll for one present field: convert_to_float,
optional f_to_c, then the setDriver override of the target node. -/
def mkWrite (u : UomTables) (p : Payload) (e : FieldSpec) : Write :=
  let raw := convert_to_float ((p e.field).getD none)
  let v := if e.convert then f_to_c raw else raw
  ⟨e.node, drvCode u e.node e.drv, (setDriverFor e.node v).1⟩

/-- The mapping block of longPoll (lines 104 to 143) over a list of field
specifications.  An absent field raises KeyError at the dictionary index,
which the single except clause at line 142 catches, so the remaining fields
of the poll are skipped; the Bool records whether that happened.  A present
but malformed field never raises: convert_to_float returns 0. -/
def mapFields (u : UomTables) (p : Payload) : List FieldSpec → List Write × Bool
  | [] => ([], false)
  | e :: rest =>
    match p e.field with
    | none => ([], true)
    | some _ =>
      let r := mapFields u p rest
      (mkWrite u p e :: r.1, r.2)

/-- The whole mapping block of longPoll over the thirteen fields. -/
def mapPayload (u : UomTables) (p : Payload) : List Write × Bool :=
  mapFields u p pollFields

/-- Result of Controller.get_data (lines 76 to 89): whether the non-200
warning was emitted, and the json.loads view of the body.  The body is
represented by its parse result; none models a body on which json.loads
raises (the exception propagates to the caller). -/
structure GetDataResult where
  warned : Bool
  parsed : Option Payload

/-- Controller.get_data (lines 76 to 89): logs when the status is not 200
and then unconditionally returns the parsed body. -/
def get_data (status : ℕ) (content : Option Payload) : GetDataResult :=
  ⟨if status = 200 then false else true, content⟩

/-- Outcome of the HTTP request issued inside get_data: fail models a raised
network error (connection refused, timeout, DNS failure); ok carries the
response status and the json.loads view of the body. -/
inductive FetchOutcome where
  | fail : FetchOutcome
  | ok : ℕ → Option Payload → FetchOutcome

/-- Observable outcome of one Controller.longPoll call (lines 91 to 146):
noIp when the endpoint is unconfigured and the poll returns at once without
any HTTP request; connectError when the outer except at line 145 caught an
exception out of get_data; mapped with the executed writes and the flag of
the inner except at line 142 otherwise. -/
inductive PollOutcome where
  | noIp : PollOutcome
  | connectError : PollOutcome
  | mapped : List Write → Bool → PollOutcome

/-- Controller.longPoll (lines 91 to 146).  The HTTP interaction is passed
in as the fetch outcome; when ip is empty the function returns before any
request is issued, so the result does not depend on fetch. -/
def longPoll (u : UomTables) (ip : String) (fetch : FetchOutcome) : PollOutcome :=
  if ip = "" then PollOutcome.noIp
  else
    match fetch with
    | FetchOutcome.fail => PollOutcome.connectError
    | FetchOutcome.ok status body =>
      match (get_data status body).parsed with
      | none => PollOutcome.connectError
      | some p => PollOutcome.mapped (mapPayload u p).1 (mapPayload u p).2

/-- One driver slot of a virtual node: driver code, current value, unit of
measure code. -/
structure DriverDef where
  driver : String
  value : ℚ
  uom : ℕ
deriving DecidableEq

/-- A registered virtual node: display name, unit system, driver slots. -/
structure NodeRec where
  name : String
  units : String
  drivers : List DriverDef
deriving DecidableEq

/-- Controller state: the instance attributes set in Controller with
the seven per-category measurement tables (Python dicts kept as association
lists in insertion order), the cached custom parameters, the registered
nodes keyed by address, and the user facing notices. -/
structure CState where
  ip : String
  units : String
  temperature_list : List (String × String)
  humidity_list : List (String × String)
  pressure_list : List (String × String)
  wind_list : List (String × String)
  rain_list : List (String × String)
  light_list : List (String × String)
  lightning_list : List (String × String)
  myConfig : List (String × String)
  nodes : String → Option NodeRec
  notices : List String

/-- The state built by Controller.init (lines 32 to 46). -/
def initState : CState :=
  { ip := ""
    units := "us"
    temperature_list := []
    humidity_list := []
    pressure_list := []
    wind_list := []
    rain_list := []
    light_list := []
    lightning_list := []
    myConfig := []
    nodes := fun _ => none
    notices := [] }

/-- Python dict assignment d[k] = v on an association list: replace in place
when the key exists, append otherwise. -/
def dictSet (d : List (String × String)) (k v : String) : List (String × String) :=
  if (d.lookup k).isSome then d.map (fun p => if p.1 = k then (k, v) else p)
  else d ++ [(k, v)]

/-- Python dict equality (order insensitive, content based), as used by the
comparison at line 52.  The association lists in reachable states have
distinct keys, for which this agrees with dict equality. -/
def dictEq (a b : List (String × String)) : Bool :=
  a.all (fun p => b.lookup p.1 == some p.2) && b.all (fun p => a.lookup p.1 == some p.2)

/-- Controller.set_configuration (lines 265 to 281), applied to the
customParams block of the configuration: IPAddress defaults to the empty
string and Units defaults to us. -/
def set_configuration (cp : List (String × String)) (st : CState) : CState :=
  { st with
    ip := (cp.lookup "IPAddress").getD ""
    units := (cp.lookup "Units").getD "us" }

/-- Controller.setup_nodedefs (lines 283 to 312): populates the per-category
measurement tables with the fixed default unit names.  The write_profile
call and the installprofile push act only on the external host (a push
failure is caught and logged), so they leave the controller state
unchanged. -/
def setup_nodedefs (st : CState) : CState :=
  { st with
    temperature_list :=
      dictSet (dictSet (dictSet st.temperature_list "main" "I_TEMP_F")
        "dewpoint" "I_TEMP_F") "windchill" "I_TEMP_F"
    humidity_list := dictSet st.humidity_list "main" "I_HUMIDITY"
    pressure_list :=
      dictSet (dictSet st.pressure_list "station" "I_INHG") "sealevel" "I_INHG"
    wind_list :=
      dictSet (dictSet (dictSet st.wind_list "windspeed" "I_MPH")
        "gustspeed" "I_MPH") "winddir" "I_DEGREE"
    rain_list := dictSet (dictSet st.rain_list "rate" "I_INHR") "total" "I_INCHES"
    light_list :=
      dictSet (dictSet st.light_list "uv" "I_UV") "solar_radiation" "I_RADIATION" }

/-- Node record built by discover for the temperature category (lines 169 to
178).  Each constructed node starts from a fresh copy of its class default
driver list; modelled from the spec: the polyinterface Node base class is
the external host framework (spec section 1), and the discovery contract
(spec section 4.5) has every invocation rebuild the nodes from the current
tables with default value 0, which requires the per-instance driver copy the
host performs on construction. -/
def temperatureNodeRec (u : UomTables) (units : String)
    (lst : List (String × String)) : NodeRec :=
  ⟨"Temperatures", units, lst.map fun p => ⟨u.TEMP_DRVS p.1, 0, u.UOM p.2⟩⟩

/-- Node record built by discover for the humidity category (lines 180 to
189); the HumidityNode class declares a default ST driver slot (line 389). -/
def humidityNodeRec (u : UomTables) (units : String)
    (lst : List (String × String)) : NodeRec :=
  ⟨"Humidity", units,
    ⟨"ST", 0, 22⟩ :: lst.map fun p => ⟨u.HUMD_DRVS p.1, 0, u.UOM p.2⟩⟩

/-- Node record built by discover for the pressure category (lines 191 to
200). -/
def pressureNodeRec (u : UomTables) (units : String)
    (lst : List (String × String)) : NodeRec :=
  ⟨"Barometric Pressure", units, lst.map fun p => ⟨u.PRES_DRVS p.1, 0, u.UOM p.2⟩⟩

/-- Node record built by discover for the wind category (lines 202 to 211). -/
def windNodeRec (u : UomTables) (units : String)
    (lst : List (String × String)) : NodeRec :=
  ⟨"Wind", units, lst.map fun p => ⟨u.WIND_DRVS p.1, 0, u.UOM p.2⟩⟩

/-- Node record built by discover for the precipitation category (lines 213
to 222). -/
def precipitationNodeRec (u : UomTables) (units : String)
    (lst : List (String × String)) : NodeRec :=
  ⟨"Precipitation", units, lst.map fun p => ⟨u.RAIN_DRVS p.1, 0, u.UOM p.2⟩⟩

/-- Node record built by discover for the light category (lines 224 to
233). -/
def lightNodeRec (u : UomTables) (units : String)
    (lst : List (String × String)) : NodeRec :=
  ⟨"Illumination", units, lst.map fun p => ⟨u.LITE_DRVS p.1, 0, u.UOM p.2⟩⟩

/-- addNode (the host registers or replaces the node stored under its
address). -/
def upsertNode (m : String → Option NodeRec) (k : String) (v : NodeRec) :
    String → Option NodeRec :=
  fun a => if a = k then some v else m a

/-- Controller.discover (lines 153 to 233): constructs and registers the six
nodes, in source order temperature, humidity, pressure, wind, rain, light.
No LightningNode is constructed. -/
def discover (u : UomTables) (st : CState) : CState :=
  { st with
    nodes :=
      upsertNode (upsertNode (upsertNode (upsertNode (upsertNode (upsertNode
        st.nodes
        "temperature" (temperatureNodeRec u st.units st.temperature_list))
        "humidity" (humidityNodeRec u st.units st.humidity_list))
        "pressure" (pressureNodeRec u st.units st.pressure_list))
        "wind" (windNodeRec u st.units st.wind_list))
        "rain" (precipitationNodeRec u st.units st.rain_list))
        "light" (lightNodeRec u st.units st.light_list) }

/-- A host configuration snapshot as delivered to process_config: the
customParams block when present. -/
structure Config where
  customParams : Option (List (String × String))

/-- The notice text added when the IP address is missing (line 65). -/
def ipNotice : String := "IP/Host address of the WiFiLogger2 device is required."

/-- Controller.process_config (lines 50 to 65): when the customParams block
is present and differs from the cached copy, re-read the configuration,
rebuild the node definitions, rerun discovery, cache the block, clear all
notices and re-add the IP notice when the IP address is still empty;
otherwise do nothing. -/
def process_config (u : UomTables) (cfg : Config) (st : CState) : CState :=
  match cfg.customParams with
  | none => st
  | some cp =>
    if dictEq cp st.myConfig then st
    else
      let st1 := discover u (setup_nodedefs (set_configuration cp st))
      let st2 := { st1 with myConfig := cp, notices := [] }
      if st2.ip = "" then { st2 with notices := st2.notices ++ [ipNotice] } else st2

/-- The controller state right after the startup configuration steps of
check_params with an empty customParams block: set_configuration followed by
setup_nodedefs, the state from which start invokes discover. -/
def stReady : CState := setup_nodedefs (set_configuration [] initState)

/-- TemperatureNode.Dewpoint (lines 353 to 358), with math.log modelled as
the real logarithm. -/
noncomputable def Dewpoint (t h : ℝ) : ℝ :=
  let b := (17.625 * t) / (243.04 + t)
  let rh := h / 100.0
  let c := Real.log rh
  let dewpt := (243.04 * (c + b)) / (17.625 - c - b)
  round1 dewpt

/-- TemperatureNode.Windchill (lines 365 to 376).  math.pow(mph, 0.16) is a
transcendental real power, abstracted as the parameter pow16; the unit
conversions, the National Weather Service formula shape, the guard and the
rounding are taken verbatim from the source. -/
def Windchill (pow16 : ℚ → ℚ) (t ws : ℚ) : ℚ :=
  let tf := t * 1.8 + 32
  let mph := ws / 0.44704
  let wc := 35.74 + 0.6215 * tf - 35.75 * pow16 mph + 0.4275 * tf * pow16 mph
  if tf ≤ 50.0 ∧ 5.0 ≤ mph then round1 ((wc - 32) / 1.8) else t

/-- The end-to-end device response of spec section 8: all thirteen fields
present with well formed numeric strings. -/
def specPayload : Payload := fun f =>
  if f = "tempout" then some (some 68.0)
  else if f = "humout" then some (some 55)
  else if f = "bar" then some (some 30.1)
  else if f = "bartr" then some (some 29.9)
  else if f = "windspd" then some (some 5)
  else if f = "gust" then some (some 10)
  else if f = "winddir" then some (some 180)
  else if f = "rainr" then some (some 0)
  else if f = "rain24" then some (some 0.25)
  else if f = "uv" then some (some 3)
  else if f = "solar" then some (some 450)
  else if f = "dew" then some (some 50)
  else if f = "chill" then some (some 68)
  else none

/-- A payload whose solar key is absent while every other key is present and
well formed. -/
def missingSolarPayload : Payload := fun f =>
  if f = "solar" then none else some (some 1)

/-- A payload in which every field is present but malformed: float() raises
on each value. -/
def allBadPayload : Payload := fun _ => some none

/-- A configuration snapshot whose customParams block is present and empty. -/
def cfgEmpty : Config := ⟨some []⟩

/-- When every field of the payload is present, the mapping block executes
all writes in order and the inner error boundary stays quiet. -/
theorem mapFields_complete (u : UomTables) (p : Payload) (l : List FieldSpec)
    (hall : l.all (fun e => (p e.field).isSome) = true) :
    mapFields u p l = (l.map (mkWrite u p), false) := by
  induction l with
  | nil => rfl
  | cons e rest ih =>
    simp only [List.all_cons, Bool.and_eq_true] at hall
    obtain ⟨he, hrest⟩ := hall
    obtain ⟨jv, hjv⟩ := Option.isSome_iff_exists.mp he
    simp [mapFields, hjv, ih hrest]

/-- C1, amended.  For a poll payload in which all thirteen known JSON fields
are present, the mapping never raises an uncaught failure and writes all
thirteen fields in order; each present but malformed field is mapped to the
value 0.0 (for the three temperature fields, 0.0 converted from Fahrenheit
to Celsius, that is f_to_c 0 = -160/9, approximately -17.78), so one
malformed field does not prevent the remaining fields of that poll from
being written.  An absent field instead raises a KeyError that the single
error boundary of the mapping block catches, skipping the remaining fields
of that poll (see the counterexample theorem). -/
theorem malformed_fields_map_to_zero (u : UomTables) (p : Payload)
    (hall : (pollFields.all fun e => (p e.field).isSome) = true) :
    mapPayload u p = (pollFields.map (mkWrite u p), false) ∧
    ∀ e ∈ pollFields, p e.field = some none →
      (mkWrite u p e).value = (setDriverFor e.node (if e.convert then f_to_c 0 else 0)).1 := by
  refine ⟨mapFields_complete u p pollFields hall, ?_⟩
  intro e _ hm
  simp [mkWrite, hm, convert_to_float]

/-- Witness for C1 at the payload whose thirteen fields are all present and
all malformed. -/
theorem malformed_fields_map_to_zero_witness :
    mapPayload u0 allBadPayload = (pollFields.map (mkWrite u0 allBadPayload), false) :=
  (malformed_fields_map_to_zero u0 allBadPayload (by decide)).1

/-- C1, counterexample.  On the concrete payload whose solar key is absent
and whose twelve other fields are present and well formed, the absent field
is not mapped to 0.0: the KeyError aborts the mapping block after the first
write, so only one of the thirteen fields is written. -/
theorem absent_field_aborts_remaining_writes :
    (mapPayload u0 missingSolarPayload).1.length = 1 ∧
    (mapPayload u0 missingSolarPayload).2 = true := by
  constructor <;>
    simp [mapPayload, mapFields, pollFields, missingSolarPayload, mkWrite]

/-- C2, counterexample.  Discovery does not rebuild seven nodes, one per
measurement category including lightning: after discover runs on the
configured startup state no node is registered under the lightning address
(Controller.discover constructs no LightningNode). -/
theorem discover_creates_no_lightning_node :
    (discover u0 stReady).nodes "lightning" = none := by
  simp [discover, stReady, upsertNode, setup_nodedefs, set_configuration, initState]

/-- C2, amended.  Invoking discovery on the configured startup state rebuilds
six virtual nodes, one per measurement category in temperature, humidity,
pressure, wind, precipitation and light, each with its enabled drivers
initialized to value 0 and unit of measure codes resolved from the shared
lookup table; no lightning node is created. -/
theorem discover_builds_six_nodes (u : UomTables) :
    (discover u stReady).nodes "temperature" =
      some ⟨"Temperatures", "us",
        [⟨u.TEMP_DRVS "main", 0, u.UOM "I_TEMP_F"⟩,
         ⟨u.TEMP_DRVS "dewpoint", 0, u.UOM "I_TEMP_F"⟩,
         ⟨u.TEMP_DRVS "windchill", 0, u.UOM "I_TEMP_F"⟩]⟩ ∧
    (discover u stReady).nodes "humidity" =
      some ⟨"Humidity", "us",
        [⟨"ST", 0, 22⟩, ⟨u.HUMD_DRVS "main", 0, u.UOM "I_HUMIDITY"⟩]⟩ ∧
    (discover u stReady).nodes "pressure" =
      some ⟨"Barometric Pressure", "us",
        [⟨u.PRES_DRVS "station", 0, u.UOM "I_INHG"⟩,
         ⟨u.PRES_DRVS "sealevel", 0, u.UOM "I_INHG"⟩]⟩ ∧
    (discover u stReady).nodes "wind" =
      some ⟨"Wind", "us",
        [⟨u.WIND_DRVS "windspeed", 0, u.UOM "I_MPH"⟩,
         ⟨u.WIND_DRVS "gustspeed", 0, u.UOM "I_MPH"⟩,
         ⟨u.WIND_DRVS "winddir", 0, u.UOM "I_DEGREE"⟩]⟩ ∧
    (discover u stReady).nodes "rain" =
      some ⟨"Precipitation", "us",
        [⟨u.RAIN_DRVS "rate", 0, u.UOM "I_INHR"⟩,
         ⟨u.RAIN_DRVS "total", 0, u.UOM "I_INCHES"⟩]⟩ ∧
    (discover u stReady).nodes "light" =
      some ⟨"Illumination", "us",
        [⟨u.LITE_DRVS "uv", 0, u.UOM "I_UV"⟩,
         ⟨u.LITE_DRVS "solar_radiation", 0, u.UOM "I_RADIATION"⟩]⟩ ∧
    (discover u stReady).nodes "lightning" = none :=
  ⟨rfl, rfl, rfl, rfl, rfl, rfl, rfl⟩

/-- C3.  Discovery is idempotent: for any uom tables and any controller
state, invoking discover twice yields exactly the same state, in particular
the same set of nodes with the same driver definition lists, as invoking it
once.  Each constructed node starts from a fresh copy of its class default
driver list (see temperatureNodeRec), so no appends accumulate between
invocations. -/
theorem discover_idempotent (u : UomTables) (st : CState) :
    discover u (discover u st) = discover u st := by
  unfold discover
  congr 1
  funext a
  simp only [upsertNode]
  split_ifs <;> rfl

/-- C4.  process_config with a customParams block equal (as a Python dict)
to the cached copy changes nothing: no rediscovery, no notice changes, all
plugin state unchanged.  With a block that differs in any way it re-reads
the configuration, rebuilds the node definitions, reruns discovery, caches
the block, clears all user facing notices and re-adds the IP notice exactly
when the IP address is still empty. -/
theorem process_config_change_detection (u : UomTables) (cfg : Config)
    (st : CState) (cp : List (String × String))
    (hcp : cfg.customParams = some cp) :
    (dictEq cp st.myConfig = true → process_config u cfg st = st) ∧
    (dictEq cp st.myConfig = false →
      (process_config u cfg st).nodes =
        (discover u (setup_nodedefs (set_configuration cp st))).nodes ∧
      (process_config u cfg st).myConfig = cp ∧
      (process_config u cfg st).ip = (cp.lookup "IPAddress").getD "" ∧
      (process_config u cfg st).notices =
        (if (cp.lookup "IPAddress").getD "" = "" then [ipNotice] else [])) := by
  constructor
  · intro h
    simp [process_config, hcp, h]
  · intro h
    by_cases hip : (cp.lookup "IPAddress").getD "" = "" <;>
      simp [process_config, hcp, h, hip, discover, setup_nodedefs, set_configuration]

/-- Witness for C4: a configuration whose empty customParams block matches
the freshly initialized cache is a no-op. -/
theorem process_config_change_detection_witness :
    process_config u0 cfgEmpty initState = initState :=
  (process_config_change_detection u0 cfgEmpty initState [] rfl).1 (by decide)

/-- C5.  The mapper applies Fahrenheit to Celsius conversion to exactly the
three temperature fields dew, tempout and chill; f_to_c maps 32 to 0.0 and
212 to 100.0; and on the end-to-end payload of the spec (tempout 68.0, dew
50) the temperature node main driver receives 20.0 degrees Celsius and its
dewpoint driver receives 10.0 degrees Celsius. -/
theorem temperature_conversion_exact_fields :
    f_to_c 32 = 0 ∧ f_to_c 212 = 100 ∧
    (pollFields.all fun e =>
      e.convert == decide (e.field = "dew" ∨ e.field = "tempout" ∨ e.field = "chill")) = true ∧
    (mapPayload u0 specPayload).1[5]? = some ⟨"temperature", "main", 20⟩ ∧
    (mapPayload u0 specPayload).1[4]? = some ⟨"temperature", "dewpoint", 10⟩ := by
  refine ⟨by norm_num [f_to_c], by norm_num [f_to_c], by decide, ?_, ?_⟩ <;>
    · simp [mapPayload, mapFields, pollFields, specPayload, mkWrite, convert_to_float,
        setDriverFor, TemperatureNode_setDriver, drvCode, u0]
      norm_num [round1, roundHE, f_to_c]

/-- C6.  With an unconfigured (empty string) device endpoint, longPoll is a
no-op: whatever the HTTP layer would have returned, the outcome is the early
return, with no request issued and no driver values written. -/
theorem longPoll_noop_without_ip (u : UomTables) (fetch : FetchOutcome) :
    longPoll u "" fetch = PollOutcome.noIp := rfl

/-- C7.  get_data never short-circuits on the HTTP status code: for every
status the parsed body is returned unchanged (the result does not depend on
the status), and the warning is logged exactly when the status is not
200. -/
theorem get_data_ignores_status (status status2 : ℕ) (content : Option Payload) :
    (get_data status content).parsed = content ∧
    (get_data status content).parsed = (get_data status2 content).parsed ∧
    ((get_data status content).warned = true ↔ status ≠ 200) := by
  refine ⟨rfl, rfl, ?_⟩
  by_cases h : status = 200 <;> simp [get_data, h]

/-- C8.  For every temperature t (Celsius) and wind speed ws, and every
value of the abstracted math.pow(mph, 0.16), Windchill returns t unchanged
unless the Fahrenheit equivalent temperature is at most 50 and the mph
equivalent wind speed is at least 5; in the qualifying case it returns the
National Weather Service formula result converted back to Celsius and
rounded to one decimal place. -/
theorem windchill_guard (pow16 : ℚ → ℚ) (t ws : ℚ) :
    (¬(t * 1.8 + 32 ≤ 50.0 ∧ 5.0 ≤ ws / 0.44704) → Windchill pow16 t ws = t) ∧
    ((t * 1.8 + 32 ≤ 50.0 ∧ 5.0 ≤ ws / 0.44704) →
      Windchill pow16 t ws =
        round1 ((35.74 + 0.6215 * (t * 1.8 + 32) - 35.75 * pow16 (ws / 0.44704)
          + 0.4275 * (t * 1.8 + 32) * pow16 (ws / 0.44704) - 32) / 1.8)) := by
  constructor <;> intro h <;> simp [Windchill, h]

/-- Witness for C8: at 20 degrees Celsius and wind speed 1 meter per second
the guard fails and the input temperature is returned unchanged. -/
theorem windchill_guard_witness : Windchill id 20 1 = 20 :=
  (windchill_guard id 20 1).1 (by norm_num)

/-- C10.  TemperatureNode.setDriver rounds every written value to one
decimal place before reporting it with a forced report, while the setDriver
overrides of the other node classes pass the value through unrounded;
consequently a malformed temperature field, mapped to f_to_c 0, is reported
as -17.8 and not as -17.78. -/
theorem setDriver_rounding_contrast :
    (∀ v : ℚ, TemperatureNode_setDriver v = (round1 v, true, true)) ∧
    (∀ v : ℚ, HumidityNode_setDriver v = (v, true, true)) ∧
    (∀ v : ℚ, PressureNode_setDriver v = (v, true, true)) ∧
    (∀ v : ℚ, WindNode_setDriver v = (v, true, true)) ∧
    (∀ v : ℚ, PrecipitationNode_setDriver v = (v, true, true)) ∧
    (∀ v : ℚ, LightNode_setDriver v = (v, true, true)) ∧
    (∀ v : ℚ, LightningNode_setDriver v = (v, true, true)) ∧
    (TemperatureNode_setDriver (f_to_c (convert_to_float none))).1 = -17.8 ∧
    (TemperatureNode_setDriver (f_to_c (convert_to_float none))).1 ≠ -17.78 := by
  refine ⟨fun v => rfl, fun v => rfl, fun v => rfl, fun v => rfl, fun v => rfl,
    fun v => rfl, fun v => rfl, ?_, ?_⟩ <;>
    norm_num [TemperatureNode_setDriver, convert_to_float, f_to_c, round1, roundHE]

/-- C9.  Dewpoint(20, 50) evaluates, under the Magnus formula approximation
with math.log as the real logarithm, to 9.3 degrees Celsius after rounding
to one decimal place.  The unrounded value lies strictly between 9.26 and
9.27, so no rounding tie is involved. -/
theorem dewpoint_magnus_20_50 : Dewpoint 20 50 = 9.3 := by
  have hlog : Real.log ((50 : ℝ) / 100.0) = -Real.log 2 := by
    rw [show ((50 : ℝ) / 100.0) = (2 : ℝ)⁻¹ by norm_num, Real.log_inv]
  have h1 : (0.6931471803 : ℝ) < Real.log 2 := Real.log_two_gt_d9
  have h2 : Real.log 2 < 0.6931471808 := Real.log_two_lt_d9
  simp only [Dewpoint, hlog]
  set L := Real.log 2 with hL
  set y : ℝ :=
    243.04 * (-L + 17.625 * 20 / (243.04 + 20)) /
      (17.625 - -L - 17.625 * 20 / (243.04 + 20)) with hy
  have hb : (17.625 * 20 : ℝ) / (243.04 + 20) = 352.5 / 263.04 := by norm_num
  have hb1 : (352.5 : ℝ) / 263.04 < 1.3402 := by norm_num
  have hb2 : (1.3401 : ℝ) < 352.5 / 263.04 := by norm_num
  have hD : (0 : ℝ) < 17.625 - -L - 17.625 * 20 / (243.04 + 20) := by
    rw [hb]; linarith
  have hlow : (9.26 : ℝ) < y := by
    rw [hy, lt_div_iff₀ hD, hb]; linarith
  have hhigh : y < 9.27 := by
    rw [hy, div_lt_iff₀ hD, hb]; linarith
  have hfloor : ⌊(10 : ℝ) * y⌋ = 92 := by
    rw [Int.floor_eq_iff]
    constructor
    · push_cast; linarith
    · push_cast; linarith
  have hfrac1 : ¬((10 : ℝ) * y - ⌊(10 : ℝ) * y⌋ < 1 / 2) := by
    rw [hfloor]; push_cast; linarith
  have hfrac2 : (1 : ℝ) / 2 < (10 : ℝ) * y - ⌊(10 : ℝ) * y⌋ := by
    rw [hfloor]; push_cast; linarith
  show round1 y = 9.3
  rw [round1, roundHE, if_neg hfrac1, if_pos hfrac2, hfloor]
  norm_num

end WiFiLogger2
